import Mathlib

/-!
Shallow embedding of the terraform-provider-googleworkspace repository's
CRUD translation layer, and verification of its specification claims.

The repository maps declared Terraform records to Google Workspace Admin
API calls and copies API responses back into state.  We embed each handler
(`GroupResource.Create/Read/Update/Delete`, `CloudIdentityPolicyDataSource.Read`,
`GoogleWorkspaceProvider.Configure`) as a pure Lean function parameterised
by the external API, modelled as a function argument.  `types.String`
fields become `String` (with `Option String` where a null check is
performed in the source); Go pointers to nested structs become `Option`;
fallible API calls become `Except`.
-/

namespace GoogleWorkspace

/-- The Terraform state/plan record for a group
(`GroupResourceModel`, src/internal/provider/group_resource.go:41-46). -/
structure GroupResourceModel where
  name : String
  email : String
  description : String
  id : String
deriving Repr, DecidableEq

/-- The Admin Directory API group object (`admin.Group`) as used by the
source: the handlers read and set its `Id`, `Email`, `Name`, `Description`
fields.  A struct literal that omits `Id` leaves it at Go's zero value `""`,
which the API client serialises as an absent field (`omitempty`). -/
structure AdminGroup where
  id : String
  email : String
  name : String
  description : String
deriving Repr, DecidableEq

/-- An error diagnostic reported to the Terraform framework via
`resp.Diagnostics.AddError(summary, detail)`. -/
structure Diagnostic where
  summary : String
  detail : String
deriving Repr, DecidableEq

/-- An error returned by a Google API call.  `googleApi code msg` models a
`*googleapi.Error` with its HTTP status `Code`; `other` models any error
that `errors.As` does not match as a `*googleapi.Error`
(src/internal/provider/group_resource.go:236-237). -/
inductive ApiError where
  | googleApi (code : Nat) (message : String)
  | other (message : String)
deriving Repr, DecidableEq

/-- `errors.As(err, &googleErr) && googleErr.Code == 404`
(src/internal/provider/group_resource.go:237). -/
def ApiError.isNotFound404 : ApiError → Bool
  | .googleApi code _ => code == 404
  | .other _ => false

/-- The request body built by `Create`
(src/internal/provider/group_resource.go:122-126): a struct literal
setting only `Email`, `Name`, `Description`; `Id` stays at Go's zero
value `""`. -/
def groupCreateRequestBody (data : GroupResourceModel) : AdminGroup :=
  { id := ""
  , email := data.email
  , name := data.name
  , description := data.description }

/-- The request body built by `Update`
(src/internal/provider/group_resource.go:196-200): a struct literal
setting only `Email`, `Name`, `Description`; `Id` stays at Go's zero
value `""`. -/
def groupUpdateRequestBody (data : GroupResourceModel) : AdminGroup :=
  { id := ""
  , email := data.email
  , name := data.name
  , description := data.description }

/-- `GroupResource.Create` (src/internal/provider/group_resource.go:108-149).
`insert` models `g.adminService.Groups.Insert(ng).Context(ctx).Do()`.
On success all four state fields are overwritten from the response `res`. -/
def GroupResource.create (insert : AdminGroup → Except ApiError AdminGroup)
    (data : GroupResourceModel) : Except Diagnostic GroupResourceModel :=
  match insert (groupCreateRequestBody data) with
  | .error _e =>
      .error { summary := "Error creating Google Group"
             , detail := "Could not create group " ++ data.email }
  | .ok res =>
      .ok { data with
            id := res.id
          , email := res.email
          , name := res.name
          , description := res.description }

/-- `GroupResource.Read` (src/internal/provider/group_resource.go:151-181).
`get` models `g.adminService.Groups.Get(key).Context(ctx).Do()`; the key
passed is `data.Name.ValueString()` (line 165).  On success all four state
fields are overwritten from the response `ng`. -/
def GroupResource.read (get : String → Except ApiError AdminGroup)
    (data : GroupResourceModel) : Except Diagnostic GroupResourceModel :=
  match get data.name with
  | .error _e =>
      .error { summary := "Client Error"
             , detail := "Unable to read group " ++ data.name }
  | .ok ng =>
      .ok { data with
            id := ng.id
          , email := ng.email
          , description := ng.description
          , name := ng.name }

/-- `GroupResource.Update` (src/internal/provider/group_resource.go:183-218).
`upd` models `g.adminService.Groups.Update(key, gu).Context(ctx).Do()`; the
key passed is `data.Id.ValueString()` (line 202).  On success all four
state fields are overwritten from the response `res`. -/
def GroupResource.update (upd : String → AdminGroup → Except ApiError AdminGroup)
    (data : GroupResourceModel) : Except Diagnostic GroupResourceModel :=
  match upd data.id (groupUpdateRequestBody data) with
  | .error _e =>
      .error { summary := "Error Updating Google Group"
             , detail := "Could not update group ID " ++ data.id }
  | .ok res =>
      .ok { data with
            email := res.email
          , name := res.name
          , description := res.description
          , id := res.id }

/-- `GroupResource.Delete` (src/internal/provider/group_resource.go:220-251).
`del` models `g.adminService.Groups.Delete(key).Context(ctx).Do()`, keyed
by `data.Id.ValueString()` (line 234); it returns `none` on success and
`some err` on failure.  A 404 `googleapi.Error` is logged and swallowed
(lines 236-243); every other error is surfaced as a diagnostic.  The
result is the diagnostic reported, if any. -/
def GroupResource.delete (del : String → Option ApiError)
    (data : GroupResourceModel) : Option Diagnostic :=
  match del data.id with
  | none => none
  | some err =>
      if err.isNotFound404 then
        none
      else
        some { summary := "Error Deleting Google Group"
             , detail := "Could not delete group ID " ++ data.id }

/-- Nested Terraform model for `query` (`QueryModel`, src/unnamed/part_002:45-49). -/
structure QueryModel where
  group : String
  orgUnit : String
  query : String
deriving Repr, DecidableEq

/-- Nested Terraform model for `setting` (`SettingModel`, src/unnamed/part_002:52-55). -/
structure SettingModel where
  type : String
  value : String
deriving Repr, DecidableEq

/-- The Terraform record for the Cloud Identity policy data source
(`CloudIdentityPolicyDataSourceModel`, src/unnamed/part_002:35-42).
The nested `Query` and `Setting` fields are Go pointers, hence `Option`. -/
structure CloudIdentityPolicyDataSourceModel where
  name : String
  customer : String
  type : String
  query : Option QueryModel
  setting : Option SettingModel
  id : String
deriving Repr, DecidableEq

/-- The `cloudidentity.PolicyQuery` object of an API response, as read
by the source (fields `Group`, `OrgUnit`, `Query`). -/
structure PolicyQuery where
  group : String
  orgUnit : String
  query : String
deriving Repr, DecidableEq

/-- The `cloudidentity.PolicySetting` object of an API response, as read
by the source (fields `Type`, `Value`; `Value` is raw JSON bytes that the
source converts to a string). -/
structure PolicySetting where
  type : String
  value : String
deriving Repr, DecidableEq

/-- The `cloudidentity.Policy` object of an API response.  The source
reads `Name`, `PolicyQuery` and `Setting`; the server also carries
`Customer` and `Type`, which the read handler never copies. -/
structure Policy where
  name : String
  customer : String
  type : String
  policyQuery : Option PolicyQuery
  setting : Option PolicySetting
deriving Repr, DecidableEq

/-- `CloudIdentityPolicyDataSource.Read` (src/unnamed/part_002:170-215).
`getPolicy` models `d.cloudidentityService.Policies.Get(policyName).Do()`,
keyed by `data.Name.ValueString()` (line 179).  On success the handler
sets `Id` and `Name` from `policy.Name` (lines 190-191), rebuilds `Query`
from `policy.PolicyQuery` and `Setting` from `policy.Setting` (lines
193-208), and leaves `Customer` and `Type` untouched. -/
def CloudIdentityPolicyDataSource.read
    (getPolicy : String → Except ApiError Policy)
    (data : CloudIdentityPolicyDataSourceModel) :
    Except Diagnostic CloudIdentityPolicyDataSourceModel :=
  match getPolicy data.name with
  | .error _e =>
      .error { summary := "Client Error"
             , detail := "Unable to read Cloud Identity Policy " ++ data.name }
  | .ok policy =>
      .ok { data with
            id := policy.name
          , name := policy.name
          , query :=
              match policy.policyQuery with
              | none => none
              | some q => some { group := q.group, orgUnit := q.orgUnit, query := q.query }
          , setting :=
              match policy.setting with
              | none => none
              | some s => some { type := s.type, value := s.value } }

/-- The provider configuration record (`GoogleWorkspaceProviderModel`,
src/internal/provider/provider.go:39-42).  `impersonatedUserEmail` is
`none` when the framework value is null or unknown (the source checks
`IsNull() || IsUnknown()` at line 95). -/
structure GoogleWorkspaceProviderModel where
  credentials : String
  impersonatedUserEmail : Option String
deriving Repr, DecidableEq

/-- The outcome of provider configuration: `fatal` models `log.Fatalf`
(process termination), `diag` a recoverable error diagnostic, `ok` a
successfully configured client whose JWT subject is the impersonated
user email. -/
inductive ConfigureOutcome where
  | fatal (message : String)
  | diag (d : Diagnostic)
  | ok (subject : String)
deriving Repr, DecidableEq

/-- The environment of `Configure`: `readFile` models `os.ReadFile` on the
credentials path; `jwtConfigFromJSON` models
`google.JWTConfigFromJSON(b, ...)`, succeeding iff the bytes parse as
service-account JSON. -/
structure ConfigureEnv where
  readFile : String → Except String String
  jwtConfigFromJSON : String → Except String Unit

/-- `GoogleWorkspaceProvider.Configure`
(src/internal/provider/provider.go:66-109).  An unreadable credentials
file hits `log.Fatalf` (lines 79-82); a JWT-config parse failure adds an
error diagnostic and returns (lines 84-91); a null/unknown impersonated
user email adds an error diagnostic (lines 95-101); otherwise the client
is built with the email as JWT subject. -/
def GoogleWorkspaceProvider.configure (env : ConfigureEnv)
    (data : GoogleWorkspaceProviderModel) : ConfigureOutcome :=
  match env.readFile data.credentials with
  | .error e => .fatal ("Unable to read client secret file: " ++ e)
  | .ok b =>
      match env.jwtConfigFromJSON b with
      | .error e =>
          .diag { summary := "Unable to parse service account JSON"
                , detail := "The provided credentials file is not valid JSON or missing fields: " ++ e }
      | .ok _ =>
          match data.impersonatedUserEmail with
          | none =>
              .diag { summary := "Missing Impersonated User Email"
                    , detail := "When using Domain-Wide Delegation, you must provide the email of the admin user to impersonate." }
          | some email => .ok email

/-! ## Claim theorems -/

/-- C1 (counterexample): the claim says Update issues its API update keyed
by the record's name field.  It does not: at a record whose name is
"mygroup" and whose id is "01abc", running Update against an API that
echoes the key it received into every field of the response shows the key
passed was "01abc" — the id — and "01abc" ≠ "mygroup". -/
theorem c1_update_not_keyed_by_name :
    GroupResource.update
      (fun key _g => Except.ok { id := key, email := key, name := key, description := key })
      { name := "mygroup", email := "grp@example.com", description := "d", id := "01abc" }
      = Except.ok { name := "01abc", email := "01abc", description := "01abc", id := "01abc" }
    ∧ ("01abc" : String) ≠ "mygroup" := by
  exact ⟨rfl, by decide⟩

/-- C1 (amended): Read is keyed by the record's name field, and Update is
keyed by the record's id field (not its name).  Against an API that echoes
its key, Read returns a record filled with `data.name` and Update one
filled with `data.id`; moreover each handler's outcome depends only on the
API's behaviour at that key. -/
theorem groupReadKeyedByName_updateKeyedById
    (get₁ get₂ : String → Except ApiError AdminGroup)
    (upd₁ upd₂ : String → AdminGroup → Except ApiError AdminGroup)
    (data : GroupResourceModel)
    (hget : get₁ data.name = get₂ data.name)
    (hupd : upd₁ data.id = upd₂ data.id) :
    GroupResource.read
        (fun key => Except.ok { id := key, email := key, name := key, description := key }) data
      = Except.ok { name := data.name, email := data.name
                  , description := data.name, id := data.name }
    ∧ GroupResource.update
        (fun key _g => Except.ok { id := key, email := key, name := key, description := key }) data
      = Except.ok { name := data.id, email := data.id
                  , description := data.id, id := data.id }
    ∧ GroupResource.read get₁ data = GroupResource.read get₂ data
    ∧ GroupResource.update upd₁ data = GroupResource.update upd₂ data := by
  refine ⟨rfl, rfl, ?_, ?_⟩
  · unfold GroupResource.read
    rw [hget]
  · unfold GroupResource.update
    rw [hupd]

/-- C1 witness: the amended key theorem instantiated at a concrete record
and two concrete API pairs that agree at the respective keys. -/
theorem groupReadKeyedByName_updateKeyedById_instance :
    GroupResource.read
        (fun key => Except.ok { id := key, email := key, name := key, description := key })
        { name := "n", email := "e", description := "d", id := "i" }
      = Except.ok { name := "n", email := "n", description := "n", id := "n" }
    ∧ GroupResource.update
        (fun key _g => Except.ok { id := key, email := key, name := key, description := key })
        { name := "n", email := "e", description := "d", id := "i" }
      = Except.ok { name := "i", email := "i", description := "i", id := "i" }
    ∧ GroupResource.read (fun _k => Except.error (ApiError.other "boom"))
        { name := "n", email := "e", description := "d", id := "i" }
      = GroupResource.read (fun _k => Except.error (ApiError.other "boom"))
        { name := "n", email := "e", description := "d", id := "i" }
    ∧ GroupResource.update (fun _k _g => Except.error (ApiError.other "boom"))
        { name := "n", email := "e", description := "d", id := "i" }
      = GroupResource.update (fun _k _g => Except.error (ApiError.other "boom"))
        { name := "n", email := "e", description := "d", id := "i" } :=
  groupReadKeyedByName_updateKeyedById
    (fun _k => Except.error (ApiError.other "boom"))
    (fun _k => Except.error (ApiError.other "boom"))
    (fun _k _g => Except.error (ApiError.other "boom"))
    (fun _k _g => Except.error (ApiError.other "boom"))
    { name := "n", email := "e", description := "d", id := "i" } rfl rfl

/-- C5: for every create input on which the API call succeeds, the record
written to state has id equal to the server-assigned identifier and name,
email, description equal to the values echoed in the API response, not the
planned input values. -/
theorem groupCreateEchoesServer
    (insert : AdminGroup → Except ApiError AdminGroup)
    (data : GroupResourceModel) (res : AdminGroup)
    (h : insert (groupCreateRequestBody data) = Except.ok res) :
    GroupResource.create insert data
      = Except.ok { name := res.name, email := res.email
                  , description := res.description, id := res.id } := by
  unfold GroupResource.create
  rw [h]

/-- C5 witness: create at a concrete plan against an API echoing distinct
server values, showing state takes the server's values. -/
theorem groupCreateEchoesServer_instance :
    GroupResource.create
      (fun _g => Except.ok { id := "srvId", email := "srv@e", name := "srvName", description := "srvDesc" })
      { name := "planName", email := "plan@e", description := "planDesc", id := "" }
      = Except.ok { name := "srvName", email := "srv@e", description := "srvDesc", id := "srvId" } :=
  groupCreateEchoesServer
    (fun _g => Except.ok { id := "srvId", email := "srv@e", name := "srvName", description := "srvDesc" })
    { name := "planName", email := "plan@e", description := "planDesc", id := "" }
    { id := "srvId", email := "srv@e", name := "srvName", description := "srvDesc" } rfl

/-- C6: update sends the full declared record — the request body carries
the plan's email, name and description for every input — and after a
successful update the state equals the record built from the server's
response to that full-record request. -/
theorem groupUpdateFullRecord
    (upd : String → AdminGroup → Except ApiError AdminGroup)
    (data : GroupResourceModel) (res : AdminGroup)
    (h : upd data.id (groupUpdateRequestBody data) = Except.ok res) :
    (groupUpdateRequestBody data).email = data.email
    ∧ (groupUpdateRequestBody data).name = data.name
    ∧ (groupUpdateRequestBody data).description = data.description
    ∧ GroupResource.update upd data
      = Except.ok { name := res.name, email := res.email
                  , description := res.description, id := res.id } := by
  refine ⟨rfl, rfl, rfl, ?_⟩
  unfold GroupResource.update
  rw [h]

/-- C6 witness: a concrete update whose API response differs from the plan
in every field; the final state equals the server response. -/
theorem groupUpdateFullRecord_instance :
    (groupUpdateRequestBody { name := "pN", email := "pE", description := "pD", id := "gid" }).email = "pE"
    ∧ (groupUpdateRequestBody { name := "pN", email := "pE", description := "pD", id := "gid" }).name = "pN"
    ∧ (groupUpdateRequestBody { name := "pN", email := "pE", description := "pD", id := "gid" }).description = "pD"
    ∧ GroupResource.update
        (fun _k _g => Except.ok { id := "gid2", email := "sE", name := "sN", description := "sD" })
        { name := "pN", email := "pE", description := "pD", id := "gid" }
      = Except.ok { name := "sN", email := "sE", description := "sD", id := "gid2" } :=
  groupUpdateFullRecord
    (fun _k _g => Except.ok { id := "gid2", email := "sE", name := "sN", description := "sD" })
    { name := "pN", email := "pE", description := "pD", id := "gid" }
    { id := "gid2", email := "sE", name := "sN", description := "sD" } rfl

/-- C9: the group id is server-assigned and never client-supplied: the
request bodies built by create and update carry the zero value "" in the
id position for every input (the Go struct literals never set `Id`, so it
is serialised as absent), and after a successful create or update the id
stored in state is exactly the id of the API response. -/
theorem groupIdServerAssigned
    (insert : AdminGroup → Except ApiError AdminGroup)
    (upd : String → AdminGroup → Except ApiError AdminGroup)
    (data : GroupResourceModel) :
    (groupCreateRequestBody data).id = ""
    ∧ (groupUpdateRequestBody data).id = ""
    ∧ (∀ res, insert (groupCreateRequestBody data) = Except.ok res →
        (GroupResource.create insert data).map (fun r => r.id) = Except.ok res.id)
    ∧ (∀ res, upd data.id (groupUpdateRequestBody data) = Except.ok res →
        (GroupResource.update upd data).map (fun r => r.id) = Except.ok res.id) := by
  refine ⟨rfl, rfl, ?_, ?_⟩
  · intro res h
    unfold GroupResource.create
    rw [h]
    rfl
  · intro res h
    unfold GroupResource.update
    rw [h]
    rfl

/-- C9 witness: even when the plan already holds an id, the bodies sent
carry "" in the id position, and the stored id comes from the response. -/
theorem groupIdServerAssigned_instance :
    (groupCreateRequestBody { name := "n", email := "e", description := "d", id := "clientId" }).id = ""
    ∧ (groupUpdateRequestBody { name := "n", email := "e", description := "d", id := "clientId" }).id = ""
    ∧ (GroupResource.create
        (fun _g => Except.ok { id := "serverId", email := "e", name := "n", description := "d" })
        { name := "n", email := "e", description := "d", id := "clientId" }).map (fun r => r.id)
      = Except.ok "serverId" := by
  have h := groupIdServerAssigned
    (fun _g => Except.ok { id := "serverId", email := "e", name := "n", description := "d" })
    (fun _k _g => Except.ok { id := "serverId", email := "e", name := "n", description := "d" })
    { name := "n", email := "e", description := "d", id := "clientId" }
  exact ⟨h.1, h.2.1, h.2.2.1 { id := "serverId", email := "e", name := "n", description := "d" } rfl⟩

/-- C10: for every successful Cloud Identity policy read, the id of the
resulting record equals its name: both are copied from the response's
`policy.Name`. -/
theorem policyReadIdEqualsName
    (getPolicy : String → Except ApiError Policy)
    (data : CloudIdentityPolicyDataSourceModel) (policy : Policy)
    (h : getPolicy data.name = Except.ok policy) :
    (CloudIdentityPolicyDataSource.read getPolicy data).map (fun r => (r.id, r.name))
      = Except.ok (policy.name, policy.name) := by
  unfold CloudIdentityPolicyDataSource.read
  rw [h]
  rfl

/-- C10 witness: a concrete policy read where the input name differs from
the response name; both id and name of the result equal the response name. -/
theorem policyReadIdEqualsName_instance :
    (CloudIdentityPolicyDataSource.read
        (fun _k => Except.ok { name := "policies/p9", customer := "customers/C1"
                             , type := "SYSTEM", policyQuery := none, setting := none })
        { name := "policies/p1", customer := "customers/C1", type := ""
        , query := none, setting := none, id := "" }).map (fun r => (r.id, r.name))
      = Except.ok ("policies/p9", "policies/p9") :=
  policyReadIdEqualsName
    (fun _k => Except.ok { name := "policies/p9", customer := "customers/C1"
                         , type := "SYSTEM", policyQuery := none, setting := none })
    { name := "policies/p1", customer := "customers/C1", type := ""
    , query := none, setting := none, id := "" }
    { name := "policies/p9", customer := "customers/C1", type := "SYSTEM"
    , policyQuery := none, setting := none } rfl

/-- C2 (counterexample): the claim says the nested query and setting
records of a successful policy read are both populated or both absent.
They are populated independently: a server response carrying a PolicyQuery
but no Setting yields a result with query present and setting absent. -/
theorem c2_nested_presence_independent :
    (CloudIdentityPolicyDataSource.read
        (fun _k => Except.ok { name := "policies/p1", customer := "customers/C1"
                             , type := "SYSTEM"
                             , policyQuery := some { group := "", orgUnit := "ou1", query := "true" }
                             , setting := none })
        { name := "policies/p1", customer := "customers/C1", type := ""
        , query := none, setting := none, id := "" }).map
      (fun r => (r.query.isSome, r.setting.isSome))
      = Except.ok (true, false) := by
  rfl

/-- C2 (amended): for every successful policy read, the nested query
record is populated exactly when the response's PolicyQuery is present and
the nested setting record exactly when the response's Setting is present;
the two presences mirror the server response independently. -/
theorem policyReadNestedPresence
    (getPolicy : String → Except ApiError Policy)
    (data : CloudIdentityPolicyDataSourceModel) (policy : Policy)
    (h : getPolicy data.name = Except.ok policy) :
    (CloudIdentityPolicyDataSource.read getPolicy data).map
      (fun r => (r.query.isSome, r.setting.isSome))
      = Except.ok (policy.policyQuery.isSome, policy.setting.isSome) := by
  unfold CloudIdentityPolicyDataSource.read
  rw [h]
  obtain ⟨pn, pc, pt, pq, ps⟩ := policy
  cases pq <;> cases ps <;> rfl

/-- C2 witness: the amended presence theorem at a response that has a
Setting but no PolicyQuery. -/
theorem policyReadNestedPresence_instance :
    (CloudIdentityPolicyDataSource.read
        (fun _k => Except.ok { name := "policies/p2", customer := "customers/C1"
                             , type := "ADMIN", policyQuery := none
                             , setting := some { type := "drive.enabled", value := "true" } })
        { name := "policies/p2", customer := "customers/C1", type := ""
        , query := none, setting := none, id := "" }).map
      (fun r => (r.query.isSome, r.setting.isSome))
      = Except.ok (false, true) :=
  policyReadNestedPresence
    (fun _k => Except.ok { name := "policies/p2", customer := "customers/C1"
                         , type := "ADMIN", policyQuery := none
                         , setting := some { type := "drive.enabled", value := "true" } })
    { name := "policies/p2", customer := "customers/C1", type := ""
    , query := none, setting := none, id := "" }
    { name := "policies/p2", customer := "customers/C1", type := "ADMIN"
    , policyQuery := none
    , setting := some { type := "drive.enabled", value := "true" } } rfl

/-- C3 (counterexample): the claim says every field of the policy record,
customer and type included, equals the corresponding field of the API
response after a successful read.  At an input whose customer is
"customers/Cold" and type "OLD", with a response carrying customer
"customers/Cnew" and type "SYSTEM", the result retains the prior input
values "customers/Cold" and "OLD". -/
theorem c3_policy_read_retains_customer_and_type :
    (CloudIdentityPolicyDataSource.read
        (fun _k => Except.ok { name := "policies/p1", customer := "customers/Cnew"
                             , type := "SYSTEM", policyQuery := none, setting := none })
        { name := "policies/p1", customer := "customers/Cold", type := "OLD"
        , query := none, setting := none, id := "" }).map
      (fun r => (r.customer, r.type))
      = Except.ok ("customers/Cold", "OLD")
    ∧ ("customers/Cold" : String) ≠ "customers/Cnew"
    ∧ ("OLD" : String) ≠ "SYSTEM" := by
  exact ⟨rfl, by decide, by decide⟩

/-- C3 (amended): a successful group read refreshes all four fields of the
group record from the API response; a successful policy read refreshes
name, id, query and setting from the response, but customer and type
retain their prior input values. -/
theorem readRefreshBehaviour
    (get : String → Except ApiError AdminGroup)
    (gdata : GroupResourceModel) (ng : AdminGroup)
    (hg : get gdata.name = Except.ok ng)
    (getPolicy : String → Except ApiError Policy)
    (pdata : CloudIdentityPolicyDataSourceModel) (policy : Policy)
    (hp : getPolicy pdata.name = Except.ok policy) :
    GroupResource.read get gdata
      = Except.ok { name := ng.name, email := ng.email
                  , description := ng.description, id := ng.id }
    ∧ CloudIdentityPolicyDataSource.read getPolicy pdata
      = Except.ok { name := policy.name
                  , customer := pdata.customer
                  , type := pdata.type
                  , query := policy.policyQuery.map
                      (fun q => { group := q.group, orgUnit := q.orgUnit, query := q.query })
                  , setting := policy.setting.map
                      (fun s => { type := s.type, value := s.value })
                  , id := policy.name } := by
  constructor
  · unfold GroupResource.read
    rw [hg]
  · unfold CloudIdentityPolicyDataSource.read
    rw [hp]
    obtain ⟨pn, pc, pt, pq, ps⟩ := policy
    cases pq <;> cases ps <;> rfl

/-- C3 witness: the refresh theorem at concrete group and policy reads. -/
theorem readRefreshBehaviour_instance :
    GroupResource.read
        (fun _k => Except.ok { id := "sid", email := "se", name := "sn", description := "sd" })
        { name := "n0", email := "e0", description := "d0", id := "i0" }
      = Except.ok { name := "sn", email := "se", description := "sd", id := "sid" }
    ∧ CloudIdentityPolicyDataSource.read
        (fun _k => Except.ok { name := "policies/pZ", customer := "customers/Cnew"
                             , type := "SYSTEM", policyQuery := none
                             , setting := some { type := "t", value := "v" } })
        { name := "policies/p1", customer := "customers/Cold", type := "OLD"
        , query := some { group := "g", orgUnit := "o", query := "q" }
        , setting := none, id := "" }
      = Except.ok { name := "policies/pZ", customer := "customers/Cold", type := "OLD"
                  , query := none
                  , setting := some { type := "t", value := "v" }
                  , id := "policies/pZ" } :=
  readRefreshBehaviour
    (fun _k => Except.ok { id := "sid", email := "se", name := "sn", description := "sd" })
    { name := "n0", email := "e0", description := "d0", id := "i0" }
    { id := "sid", email := "se", name := "sn", description := "sd" } rfl
    (fun _k => Except.ok { name := "policies/pZ", customer := "customers/Cnew"
                         , type := "SYSTEM", policyQuery := none
                         , setting := some { type := "t", value := "v" } })
    { name := "policies/p1", customer := "customers/Cold", type := "OLD"
    , query := some { group := "g", orgUnit := "o", query := "q" }
    , setting := none, id := "" }
    { name := "policies/pZ", customer := "customers/Cnew", type := "SYSTEM"
    , policyQuery := none, setting := some { type := "t", value := "v" } } rfl

/-- C4: group delete swallows a 404: if the API returns a not-found
googleapi error the operation reports no diagnostic; a successful API call
reports no diagnostic; delete followed by delete succeeds when the second
call returns 404 (the first having removed the group); every other API
error is surfaced as an error diagnostic. -/
theorem groupDeleteIdempotent
    (del₁ del₂ : String → Option ApiError) (data : GroupResourceModel) :
    (∀ e, del₁ data.id = some e → e.isNotFound404 = true →
        GroupResource.delete del₁ data = none)
    ∧ (del₁ data.id = none → GroupResource.delete del₁ data = none)
    ∧ (∀ e, del₁ data.id = none → del₂ data.id = some e → e.isNotFound404 = true →
        GroupResource.delete del₁ data = none ∧ GroupResource.delete del₂ data = none)
    ∧ (∀ e, del₁ data.id = some e → e.isNotFound404 = false →
        GroupResource.delete del₁ data
          = some { summary := "Error Deleting Google Group"
                 , detail := "Could not delete group ID " ++ data.id }) := by
  refine ⟨?_, ?_, ?_, ?_⟩
  · intro e he h404
    unfold GroupResource.delete
    rw [he]
    simp [h404]
  · intro hok
    unfold GroupResource.delete
    rw [hok]
  · intro e hok he h404
    constructor
    · unfold GroupResource.delete
      rw [hok]
    · unfold GroupResource.delete
      rw [he]
      simp [h404]
  · intro e he h404
    unfold GroupResource.delete
    rw [he]
    simp [h404]

/-- C4 witness: a first delete whose API call succeeds followed by a
second whose API call returns 404 — both report no diagnostic — and a
delete hitting a 403 error, which is surfaced. -/
theorem groupDeleteIdempotent_instance :
    GroupResource.delete (fun _k => none)
        { name := "n", email := "e", description := "d", id := "gid" } = none
    ∧ GroupResource.delete (fun _k => some (ApiError.googleApi 404 "notFound"))
        { name := "n", email := "e", description := "d", id := "gid" } = none
    ∧ GroupResource.delete (fun _k => some (ApiError.googleApi 403 "forbidden"))
        { name := "n", email := "e", description := "d", id := "gid" }
      = some { summary := "Error Deleting Google Group"
             , detail := "Could not delete group ID " ++ "gid" } := by
  have h := groupDeleteIdempotent (fun _k => none)
    (fun _k => some (ApiError.googleApi 404 "notFound"))
    { name := "n", email := "e", description := "d", id := "gid" }
  have h403 := groupDeleteIdempotent (fun _k => some (ApiError.googleApi 403 "forbidden"))
    (fun _k => none)
    { name := "n", email := "e", description := "d", id := "gid" }
  have hseq := h.2.2.1 (ApiError.googleApi 404 "notFound") rfl rfl rfl
  exact ⟨hseq.1, hseq.2, h403.2.2.2 (ApiError.googleApi 403 "forbidden") rfl rfl⟩

/-- C7 (counterexample): the claim says a credentials file whose contents
fail to parse as service-account JSON terminates the process fatally.  It
does not: with a readable file holding unparsable bytes, Configure adds a
recoverable error diagnostic and returns. -/
theorem c7_parse_failure_is_recoverable :
    GoogleWorkspaceProvider.configure
      { readFile := fun _p => Except.ok "not service account json"
      , jwtConfigFromJSON := fun _b => Except.error "invalid character" }
      { credentials := "/tmp/creds.json", impersonatedUserEmail := some "admin@example.com" }
      = ConfigureOutcome.diag
          { summary := "Unable to parse service account JSON"
          , detail := "The provided credentials file is not valid JSON or missing fields: "
              ++ "invalid character" } := by
  rfl

/-- C7 (amended): during provider configuration, an unreadable credentials
file terminates the process fatally, while contents that fail to parse as
service-account JSON produce a recoverable error diagnostic rather than a
fatal exit. -/
theorem configureCredentialErrors
    (env : ConfigureEnv) (data : GoogleWorkspaceProviderModel) :
    (∀ e, env.readFile data.credentials = Except.error e →
        GoogleWorkspaceProvider.configure env data
          = ConfigureOutcome.fatal ("Unable to read client secret file: " ++ e))
    ∧ (∀ b e, env.readFile data.credentials = Except.ok b →
        env.jwtConfigFromJSON b = Except.error e →
        GoogleWorkspaceProvider.configure env data
          = ConfigureOutcome.diag
              { summary := "Unable to parse service account JSON"
              , detail := "The provided credentials file is not valid JSON or missing fields: "
                  ++ e }) := by
  constructor
  · intro e he
    unfold GoogleWorkspaceProvider.configure
    rw [he]
  · intro b e hb he
    unfold GoogleWorkspaceProvider.configure
    rw [hb]
    simp [he]

/-- C7 witness: the amended theorem at a concrete environment whose file
read fails, and at one whose file reads but fails to parse. -/
theorem configureCredentialErrors_instance :
    GoogleWorkspaceProvider.configure
      { readFile := fun _p => Except.error "no such file"
      , jwtConfigFromJSON := fun _b => Except.ok () }
      { credentials := "/missing.json", impersonatedUserEmail := some "a@b" }
      = ConfigureOutcome.fatal ("Unable to read client secret file: " ++ "no such file")
    ∧ GoogleWorkspaceProvider.configure
      { readFile := fun _p => Except.ok "garbage"
      , jwtConfigFromJSON := fun _b => Except.error "bad json" }
      { credentials := "/creds.json", impersonatedUserEmail := some "a@b" }
      = ConfigureOutcome.diag
          { summary := "Unable to parse service account JSON"
          , detail := "The provided credentials file is not valid JSON or missing fields: "
              ++ "bad json" } := by
  have h1 := configureCredentialErrors
    { readFile := fun _p => Except.error "no such file"
    , jwtConfigFromJSON := fun _b => Except.ok () }
    { credentials := "/missing.json", impersonatedUserEmail := some "a@b" }
  have h2 := configureCredentialErrors
    { readFile := fun _p => Except.ok "garbage"
    , jwtConfigFromJSON := fun _b => Except.error "bad json" }
    { credentials := "/creds.json", impersonatedUserEmail := some "a@b" }
  exact ⟨h1.1 "no such file" rfl, h2.2 "garbage" "bad json" rfl rfl⟩

/-- C8: if the API returns on read the same group record it returned on
create, then the record produced by a read immediately after create equals
the record create wrote to state, in all four fields. -/
theorem readAfterCreate
    (insert : AdminGroup → Except ApiError AdminGroup)
    (get : String → Except ApiError AdminGroup)
    (data : GroupResourceModel) (res : AdminGroup)
    (created : GroupResourceModel)
    (hc : insert (groupCreateRequestBody data) = Except.ok res)
    (hcr : GroupResource.create insert data = Except.ok created)
    (hr : get created.name = Except.ok res) :
    GroupResource.read get created = Except.ok created := by
  have hcreated : created
      = { name := res.name, email := res.email
        , description := res.description, id := res.id } := by
    unfold GroupResource.create at hcr
    rw [hc] at hcr
    exact (Except.ok.inj hcr).symm
  subst hcreated
  unfold GroupResource.read
  rw [hr]

/-- C8 witness: concrete create followed by read against an API that
returns the same record; the read result equals the created state. -/
theorem readAfterCreate_instance :
    GroupResource.read
      (fun _k => Except.ok { id := "sid", email := "se", name := "sn", description := "sd" })
      { name := "sn", email := "se", description := "sd", id := "sid" }
      = Except.ok { name := "sn", email := "se", description := "sd", id := "sid" } :=
  readAfterCreate
    (fun _g => Except.ok { id := "sid", email := "se", name := "sn", description := "sd" })
    (fun _k => Except.ok { id := "sid", email := "se", name := "sn", description := "sd" })
    { name := "pn", email := "pe", description := "pd", id := "" }
    { id := "sid", email := "se", name := "sn", description := "sd" }
    { name := "sn", email := "se", description := "sd", id := "sid" }
    rfl rfl rfl

end GoogleWorkspace
